import Mathlib

/-!
A verification model of the pharmacy backend (Django app `pharmacy`), focused on
the order creation and pricing workflow (`QuickOrderSerializer.create`), order
status updates (`update_order_status`), conversation session context merging
(`whatsapp_session`), symptom-based suggestions (`medicine_suggestions`), and
the `Medicine.selling_price` property.

Monetary values (`DecimalField`) are modelled as exact rationals (`Rat`); the
database is modelled as a `Store` of lists of rows, threaded explicitly through
the operations.  An operation that can raise an unhandled exception returns the
store as mutated so far together with `none` instead of the normal result,
since the code runs outside any enclosing transaction.
-/

/-- prescription_type choices of `Medicine.PRESCRIPTION_CHOICES` in models.py. -/
inductive PrescriptionType where
  | OTC
  | RX
  | RXC
deriving DecidableEq, Repr

/-- status choices of `Order.STATUS_CHOICES` in models.py. -/
inductive OrderStatus where
  | PENDING
  | CONFIRMED
  | PREPARING
  | READY
  | DELIVERED
  | CANCELLED
deriving DecidableEq, Repr

/-- model of `Medicine` (models.py), restricted to the fields the verified
operations read. -/
structure Medicine where
  id : Nat
  name : String
  generic_name : String
  brand_name : String
  composition : String
  prescription_type : PrescriptionType
  mrp : Rat
  discount_percentage : Rat
  is_active : Bool
  is_in_stock : Bool
deriving DecidableEq, Repr

/-- model of the `Medicine.selling_price` property:
`discount_amount = (mrp * discount_percentage) / 100; mrp - discount_amount`. -/
def Medicine.selling_price (m : Medicine) : Rat :=
  m.mrp - m.mrp * m.discount_percentage / 100

/-- model of `Medicine.is_prescription_required`:
`prescription_type in ['RX', 'RXC']`. -/
def Medicine.is_prescription_required (m : Medicine) : Bool :=
  m.prescription_type == PrescriptionType.RX || m.prescription_type == PrescriptionType.RXC

/-- model of `Customer` (models.py), restricted to the fields the order
workflow touches.  `id` is the database primary key. -/
structure Customer where
  id : Nat
  phone_number : String
  whatsapp_number : String
deriving DecidableEq, Repr

/-- model of `Order` (models.py).  `order_id` is modelled as a store-assigned
fresh natural number (the source uses a fresh UUID). -/
structure Order where
  order_id : Nat
  customer_id : Nat
  pharmacy_id : Int
  status : OrderStatus
  subtotal : Rat
  tax_amount : Rat
  delivery_charge : Rat
  total_amount : Rat
  prescription_required : Bool
  delivery_address : String
  notes : String
deriving DecidableEq, Repr

/-- model of `OrderItem` (models.py).  `quantity` is an `Int` because the
serializer obtains it via Python `int(...)` on a string. -/
structure OrderItem where
  order_id : Nat
  medicine_id : Nat
  quantity : Int
  unit_price : Rat
  total_price : Rat
deriving DecidableEq, Repr

/-- model of `PharmacyInventory` (models.py), restricted to the fields relevant
to the quick-order frame property. -/
structure PharmacyInventory where
  pharmacy_id : Nat
  medicine_id : Nat
  stock_quantity : Nat
  reorder_level : Nat
  cost_price : Rat
  selling_price : Rat
deriving DecidableEq, Repr

/-- conversation context values (`JSONField` entries), modelled as a small
closed value type; the merge semantics under scrutiny is value-agnostic. -/
inductive JVal where
  | jnum : Int → JVal
  | jstr : String → JVal
deriving DecidableEq, Repr

/-- model of `WhatsAppSession` (models.py); `context_data` is an association
list of JSON keys to values. -/
structure Session where
  phone_number : String
  session_id : String
  current_step : String
  context_data : List (String × JVal)
deriving DecidableEq, Repr

/-- the database, as lists of rows plus primary-key counters. -/
structure Store where
  medicines : List Medicine
  customers : List Customer
  orders : List Order
  items : List OrderItem
  inventory : List PharmacyInventory
  sessions : List Session
  next_customer_id : Nat
  next_order_id : Nat
deriving DecidableEq, Repr

/-- database well-formedness: primary keys of persisted rows are below the
fresh-key counters, and medicine ids are distinct (primary-key uniqueness). -/
def Store.WF (s : Store) : Prop :=
  (∀ o ∈ s.orders, o.order_id < s.next_order_id) ∧
  (∀ it ∈ s.items, it.order_id < s.next_order_id) ∧
  (s.medicines.map Medicine.id).Nodup

instance (s : Store) : Decidable s.WF := by
  unfold Store.WF; infer_instance

/-- digit-run accumulator for `parseDigits`: decimal digits with single
underscores allowed between digits (Python integer-literal grammar; a doubled,
leading or trailing underscore is an error). -/
def parseDigitsAux : List Char → Nat → Option Nat
  | [], acc => some acc
  | '_' :: c :: cs, acc =>
    if c.isDigit then parseDigitsAux cs (acc * 10 + (c.toNat - 48)) else none
  | ['_'], _ => none
  | c :: cs, acc =>
    if c.isDigit then parseDigitsAux cs (acc * 10 + (c.toNat - 48)) else none

/-- a nonempty digit run starting with a digit, with underscores between
digits. -/
def parseDigits (cs : List Char) : Option Nat :=
  match cs with
  | [] => none
  | c :: _ => if c.isDigit then parseDigitsAux cs 0 else none

/-- model of Python `int(string)`: surrounding whitespace is stripped, then an
optional sign followed by at least one decimal digit (single underscores
allowed between digits); anything else is a `ValueError` (`none`). -/
def parsePyInt (s : String) : Option Int :=
  let cs := ((s.toList.dropWhile Char.isWhitespace).reverse.dropWhile
    Char.isWhitespace).reverse
  match cs with
  | '-' :: rest => (parseDigits rest).map (fun n => -(n : Int))
  | '+' :: rest => (parseDigits rest).map (fun n => (n : Int))
  | rest => (parseDigits rest).map (fun n => (n : Int))

/-- one entry of the `medicines` list of a quick-order request: a dict of
strings (serializers.py `ListField(child=DictField(child=CharField()))`). -/
structure QuickOrderLine where
  medicine_id : String
  quantity : String
deriving DecidableEq, Repr

/-- validated data of `QuickOrderSerializer`. -/
structure QuickOrderRequest where
  customer_phone : String
  pharmacy_id : Int
  medicines : List QuickOrderLine
  delivery_address : String
  notes : String
deriving DecidableEq, Repr

/-- model of `Customer.objects.get_or_create(phone_number=...,
defaults=dict(whatsapp_number=...))` in `QuickOrderSerializer.create`. -/
def getOrCreateCustomer (s : Store) (phone : String) : Store × Customer :=
  match s.customers.find? (fun c => c.phone_number == phone) with
  | some c => (s, c)
  | none =>
    let c : Customer :=
      { id := s.next_customer_id, phone_number := phone, whatsapp_number := phone }
    ({ s with customers := s.customers ++ [c],
              next_customer_id := s.next_customer_id + 1 }, c)

/-- model of the `for med_data in medicines_data` loop of
`QuickOrderSerializer.create`: returns the `OrderItem` rows persisted by the
loop, and `some (subtotal, prescription_required)` on normal completion or
`none` when an uncaught exception escapes the loop.  Only
`Medicine.DoesNotExist` is caught (skipping the line); uncaught are: a
`medicine_id` that is not an integer literal (`ValueError` in the id lookup),
a quantity string rejected by `int(...)` (`ValueError`), and a negative
quantity, which violates the `PositiveIntegerField` check constraint of
`OrderItem.quantity` so the insert raises an `IntegrityError` and the item is
not persisted. -/
def processLines (meds : List Medicine) (oid : Nat) :
    List QuickOrderLine → Rat → Bool → List OrderItem × Option (Rat × Bool)
  | [], subtotal, presc => ([], some (subtotal, presc))
  | line :: rest, subtotal, presc =>
    match parsePyInt line.medicine_id with
    | none => ([], none)
    | some mid =>
      match meds.find? (fun m => (m.id : Int) == mid) with
      | none => processLines meds oid rest subtotal presc
      | some med =>
        match parsePyInt line.quantity with
        | none => ([], none)
        | some qty =>
          if qty < 0 then ([], none)
          else
            let item : OrderItem :=
              { order_id := oid, medicine_id := med.id, quantity := qty,
                unit_price := med.selling_price,
                total_price := med.selling_price * (qty : Rat) }
            let r := processLines meds oid rest (subtotal + med.selling_price * (qty : Rat))
                       (presc || med.is_prescription_required)
            (item :: r.1, r.2)

/-- model of `QuickOrderSerializer.create`:
get-or-create the customer, create the order row with zeroed totals, process
the medicine lines, then store `subtotal`, `tax_amount = subtotal * 0.05`,
`total_amount = subtotal + tax_amount` and the prescription flag on the order.
There is no enclosing transaction, so on an uncaught exception (`none`) the
already-persisted order and item rows remain in the store.

As soon as any item was created, the running `total_amount` is a `Decimal`
(the medicine prices are `DecimalField` values), so the tax assignment
`total_amount * 0.05` multiplies a `Decimal` by a float and raises
`TypeError` before `order.save()` runs: the order keeps its zeroed totals and
false prescription flag, and the call fails.  Only when the loop created no
item (so `total_amount` is still the int `0`) do the totals lines run and the
order is returned. -/
def createQuickOrder (s : Store) (req : QuickOrderRequest) : Store × Option Order :=
  let gc := getOrCreateCustomer s req.customer_phone
  let s1 := gc.1
  let oid := s1.next_order_id
  let order0 : Order :=
    { order_id := oid, customer_id := gc.2.id, pharmacy_id := req.pharmacy_id,
      status := OrderStatus.PENDING, subtotal := 0, tax_amount := 0,
      delivery_charge := 0, total_amount := 0, prescription_required := false,
      delivery_address := req.delivery_address, notes := req.notes }
  let s2 : Store := { s1 with orders := s1.orders ++ [order0], next_order_id := oid + 1 }
  match processLines s2.medicines oid req.medicines 0 false with
  | (newItems, none) => ({ s2 with items := s2.items ++ newItems }, none)
  | (newItems, some st) =>
    if newItems.isEmpty then
      let tax := st.1 * (5 / 100)
      let order : Order :=
        { order0 with subtotal := st.1, tax_amount := tax,
                      total_amount := st.1 + tax, prescription_required := st.2 }
      ({ s2 with items := s2.items ++ newItems,
                 orders := s2.orders.map (fun o => if o.order_id == oid then order else o) },
       some order)
    else
      ({ s2 with items := s2.items ++ newItems }, none)

/-- the six status strings accepted by `update_order_status`
(`dict(Order.STATUS_CHOICES)` membership). -/
def validStatuses : List String :=
  ["PENDING", "CONFIRMED", "PREPARING", "READY", "DELIVERED", "CANCELLED"]

/-- parse a status string into the status enumeration. -/
def statusOfString : String → Option OrderStatus
  | "PENDING" => some OrderStatus.PENDING
  | "CONFIRMED" => some OrderStatus.CONFIRMED
  | "PREPARING" => some OrderStatus.PREPARING
  | "READY" => some OrderStatus.READY
  | "DELIVERED" => some OrderStatus.DELIVERED
  | "CANCELLED" => some OrderStatus.CANCELLED
  | _ => none

/-- result of the `update_order_status` view: 404, 400, or the updated store
and order. -/
inductive UpdateStatusResult where
  | err404
  | err400
  | ok (s : Store) (o : Order)
deriving DecidableEq, Repr

/-- model of the `update_order_status` view (views.py): look the order up by
id (404 if absent), reject a status string outside `Order.STATUS_CHOICES`
(400), otherwise overwrite the status unconditionally and save. -/
def update_order_status (s : Store) (oid : Nat) (newStatus : String) : UpdateStatusResult :=
  match s.orders.find? (fun o => o.order_id == oid) with
  | none => UpdateStatusResult.err404
  | some o =>
    match statusOfString newStatus with
    | none => UpdateStatusResult.err400
    | some st =>
      let o2 : Order := { o with status := st }
      UpdateStatusResult.ok
        { s with orders := s.orders.map (fun p => if p.order_id == oid then o2 else p) } o2

/-- model of `WhatsAppSession.objects.get_or_create(phone_number=...,
session_id=..., defaults=...)` in the `whatsapp_session` view. -/
def getOrCreateSession (s : Store) (phone sid : String) : Store × Session :=
  match s.sessions.find? (fun t => t.phone_number == phone && t.session_id == sid) with
  | some t => (s, t)
  | none =>
    let t : Session :=
      { phone_number := phone, session_id := sid, current_step := "start", context_data := [] }
    ({ s with sessions := s.sessions ++ [t] }, t)

/-- Python `d[k] = v` on an association list: replace the value of an existing
key in place, else append the binding. -/
def dictUpsert {α β : Type} [BEq α] (l : List (α × β)) (k : α) (v : β) : List (α × β) :=
  match l with
  | [] => [(k, v)]
  | (k2, v2) :: rest =>
    if k2 == k then (k2, v) :: rest else (k2, v2) :: dictUpsert rest k v

/-- Python `old.update(upd)`: upsert every binding of `upd` into `old`, in
order. -/
def dictUpdate {α β : Type} [BEq α] (old upd : List (α × β)) : List (α × β) :=
  upd.foldl (fun acc kv => dictUpsert acc kv.1 kv.2) old

/-- model of the POST branch of the `whatsapp_session` view: get-or-create the
session, overwrite `current_step` when supplied, merge (`dict.update`) the
supplied `context_data` into the stored one, and save. -/
def whatsappSessionPost (s : Store) (phone sid : String)
    (stepOpt : Option String) (ctxOpt : Option (List (String × JVal))) : Store × Session :=
  let gc := getOrCreateSession s phone sid
  let sess1 : Session :=
    match stepOpt with
    | some st => { gc.2 with current_step := st }
    | none => gc.2
  let sess2 : Session :=
    match ctxOpt with
    | some u => { sess1 with context_data := dictUpdate sess1.context_data u }
    | none => sess1
  let saved := gc.1.sessions.map
    (fun t => if t.phone_number == phone && t.session_id == sid then sess2 else t)
  ({ gc.1 with sessions := saved }, sess2)

/-- one list is a contiguous infix of another (over `BEq`). -/
def isInfixOfList {α : Type} [BEq α] (needle : List α) : List α → Bool
  | [] => needle.isEmpty
  | a :: t => needle.isPrefixOf (a :: t) || isInfixOfList needle t

/-- lowercased character list of a string (Python `.lower()`). -/
def lowerChars (s : String) : List Char :=
  s.toList.map Char.toLower

/-- case-insensitive substring test: models both `condition in symptom` (the
view lowercases the symptom first) and the `icontains` lookups. -/
def strContains (hay pat : String) : Bool :=
  isInfixOfList (lowerChars pat) (lowerChars hay)

/-- the `symptom_keywords` table of the `medicine_suggestions` view, in source
order (Python dict iteration order is insertion order). -/
def symptom_keywords : List (String × List String) :=
  [("headache", ["paracetamol", "aspirin", "ibuprofen"]),
   ("fever", ["paracetamol", "panadol", "crocin"]),
   ("cold", ["cetirizine", "phenylephrine", "paracetamol"]),
   ("cough", ["dextromethorphan", "ambroxol", "salbutamol"]),
   ("acidity", ["omeprazole", "pantoprazole", "ranitidine"]),
   ("pain", ["ibuprofen", "diclofenac", "paracetamol"])]

/-- model of the `medicine_suggestions` view: take the first table condition
contained in the symptom, and return the active OTC medicines whose name,
generic name or composition contains the first keyword (case-insensitively),
truncated to `limit` (the view truncates both the query and the final list). -/
def medicine_suggestions (meds : List Medicine) (symptom : String) (limit : Nat) :
    List Medicine :=
  match symptom_keywords.find? (fun ck => strContains symptom ck.1) with
  | none => []
  | some ck =>
    let kw := ck.2.headD ""
    ((meds.filter (fun m =>
        (strContains m.name kw || strContains m.generic_name kw ||
         strContains m.composition kw)
        && m.is_active && (m.prescription_type == PrescriptionType.OTC))).take limit).take limit

/-- round a rational to the nearest integer with half-to-even tie-breaking, as
Python `round` does on exact decimal values. -/
def roundHalfEven (q : Rat) : Int :=
  let f := Int.fdiv q.num (q.den : Int)
  let r := q - (f : Rat)
  if r < 1 / 2 then f
  else if 1 / 2 < r then f + 1
  else if f % 2 = 0 then f else f + 1

/-- round to two decimal places (half-to-even), Python `round(x, 2)`. -/
def round2 (q : Rat) : Rat :=
  (roundHalfEven (q * 100) : Rat) / 100

/-- the order row as first persisted by `Order.objects.create` inside
`QuickOrderSerializer.create`: PENDING status and zeroed totals. -/
def initialOrder (s : Store) (req : QuickOrderRequest) : Order :=
  { order_id := s.next_order_id,
    customer_id := (getOrCreateCustomer s req.customer_phone).2.id,
    pharmacy_id := req.pharmacy_id, status := OrderStatus.PENDING,
    subtotal := 0, tax_amount := 0, delivery_charge := 0, total_amount := 0,
    prescription_required := false, delivery_address := req.delivery_address,
    notes := req.notes }

/-- the order row as saved at the end of `QuickOrderSerializer.create`, given
the accumulated subtotal and prescription flag. -/
def finalOrder (s : Store) (req : QuickOrderRequest) (sub : Rat) (presc : Bool) : Order :=
  { initialOrder s req with
    subtotal := sub, tax_amount := sub * (5 / 100),
    total_amount := sub + sub * (5 / 100), prescription_required := presc }

/-- sample over-the-counter medicine. -/
def medOTC : Medicine :=
  { id := 1, name := "Paracetamol", generic_name := "", brand_name := "",
    composition := "paracetamol", prescription_type := PrescriptionType.OTC,
    mrp := 50, discount_percentage := 0, is_active := true, is_in_stock := true }

/-- sample prescription medicine. -/
def medRX : Medicine :=
  { id := 2, name := "Amoxicillin", generic_name := "", brand_name := "",
    composition := "amoxicillin", prescription_type := PrescriptionType.RX,
    mrp := 100, discount_percentage := 0, is_active := true, is_in_stock := true }

/-- sample store holding the two sample medicines and nothing else. -/
def store0 : Store :=
  { medicines := [medOTC, medRX], customers := [], orders := [], items := [],
    inventory := [], sessions := [], next_customer_id := 1, next_order_id := 1 }

/-- sample quick-order request: 2 units of the OTC medicine and 1 unit of the
prescription medicine (the worked example of the specification). -/
def reqA : QuickOrderRequest :=
  { customer_phone := "9990001111", pharmacy_id := 7,
    medicines := [{ medicine_id := "1", quantity := "2" },
                  { medicine_id := "2", quantity := "1" }],
    delivery_address := "", notes := "" }

/-- request with no medicine lines: the only kind of quick order whose tax
assignment does not crash, since the running total is still the int 0. -/
def reqEmpty : QuickOrderRequest :=
  { customer_phone := "9990001111", pharmacy_id := 7, medicines := [],
    delivery_address := "", notes := "" }

/-- the zero-item order returned by `createQuickOrder store0 reqEmpty`. -/
def orderZero : Order :=
  { order_id := 1, customer_id := 1, pharmacy_id := 7, status := OrderStatus.PENDING,
    subtotal := 0, tax_amount := 0, delivery_charge := 0, total_amount := 0,
    prescription_required := false, delivery_address := "", notes := "" }

/-- request whose first line references the nonexistent medicine id 99. -/
def c3_req : QuickOrderRequest :=
  { customer_phone := "9990001111", pharmacy_id := 7,
    medicines := [{ medicine_id := "99", quantity := "1" },
                  { medicine_id := "1", quantity := "2" }],
    delivery_address := "", notes := "" }

/-- request with a quantity string rejected by `int(...)`. -/
def c4_req : QuickOrderRequest :=
  { customer_phone := "9990001111", pharmacy_id := 7,
    medicines := [{ medicine_id := "1", quantity := "two" }],
    delivery_address := "", notes := "" }

/-- sample order already in DELIVERED state. -/
def orderDelivered : Order :=
  { order_id := 1, customer_id := 1, pharmacy_id := 7, status := OrderStatus.DELIVERED,
    subtotal := 0, tax_amount := 0, delivery_charge := 0, total_amount := 0,
    prescription_required := false, delivery_address := "", notes := "" }

/-- store holding one DELIVERED order. -/
def c5_store : Store :=
  { store0 with orders := [orderDelivered], next_order_id := 2 }

/-- sample conversation session whose context holds the single key `a`. -/
def sessA : Session :=
  { phone_number := "p1", session_id := "default", current_step := "collect",
    context_data := [("a", JVal.jnum 1)] }

/-- store holding the sample session. -/
def c7_store : Store :=
  { store0 with sessions := [sessA] }

/-- medicine with a negative MRP; no validator in the model (or the source)
prevents it. -/
def c8_bad : Medicine :=
  { id := 3, name := "Bogus", generic_name := "", brand_name := "",
    composition := "x", prescription_type := PrescriptionType.OTC,
    mrp := -1, discount_percentage := 0, is_active := true, is_in_stock := true }

/-- `getOrCreateCustomer` touches only the customer table and its counter. -/
theorem getOrCreateCustomer_frame (s : Store) (p : String) :
    (getOrCreateCustomer s p).1.medicines = s.medicines ∧
    (getOrCreateCustomer s p).1.orders = s.orders ∧
    (getOrCreateCustomer s p).1.items = s.items ∧
    (getOrCreateCustomer s p).1.inventory = s.inventory ∧
    (getOrCreateCustomer s p).1.sessions = s.sessions ∧
    (getOrCreateCustomer s p).1.next_order_id = s.next_order_id := by
  rcases h : s.customers.find? (fun c => c.phone_number == p) with _ | c <;>
    simp [getOrCreateCustomer, h]

/-- unfolding of `createQuickOrder` with the intermediate store normalized
away: the line loop runs on the original medicine table and order counter. -/
theorem createQuickOrder_spec (s : Store) (req : QuickOrderRequest) :
    createQuickOrder s req =
      (let gc := getOrCreateCustomer s req.customer_phone
       let oid := s.next_order_id
       let order0 : Order :=
         { order_id := oid, customer_id := gc.2.id, pharmacy_id := req.pharmacy_id,
           status := OrderStatus.PENDING, subtotal := 0, tax_amount := 0,
           delivery_charge := 0, total_amount := 0, prescription_required := false,
           delivery_address := req.delivery_address, notes := req.notes }
       match processLines s.medicines oid req.medicines 0 false with
       | (newItems, none) =>
         ({ gc.1 with orders := gc.1.orders ++ [order0],
                      items := gc.1.items ++ newItems,
                      next_order_id := oid + 1 }, none)
       | (newItems, some st) =>
         if newItems.isEmpty then
           let order : Order :=
             { order0 with subtotal := st.1, tax_amount := st.1 * (5 / 100),
                           total_amount := st.1 + st.1 * (5 / 100),
                           prescription_required := st.2 }
           ({ gc.1 with
                orders := (gc.1.orders ++ [order0]).map
                  (fun o => if o.order_id == oid then order else o),
                items := gc.1.items ++ newItems,
                next_order_id := oid + 1 }, some order)
         else
           ({ gc.1 with orders := gc.1.orders ++ [order0],
                        items := gc.1.items ++ newItems,
                        next_order_id := oid + 1 }, none)) := by
  obtain ⟨h1, h2, h3, h4, h5, h6⟩ := getOrCreateCustomer_frame s req.customer_phone
  unfold createQuickOrder
  simp only [h1, h2, h3, h4, h5, h6]

/-- every item persisted by the line loop carries the fresh order id. -/
theorem processLines_order_id (meds : List Medicine) (oid : Nat) :
    ∀ (lines : List QuickOrderLine) (sub : Rat) (p : Bool),
      ∀ it ∈ (processLines meds oid lines sub p).1, it.order_id = oid := by
  intro lines
  induction lines with
  | nil => intro sub p it h; simp [processLines] at h
  | cons line rest ih =>
    intro sub p it h
    rcases hm : parsePyInt line.medicine_id with _ | mid
    · simp [processLines, hm] at h
    · rcases hf : meds.find? (fun m => (m.id : Int) == mid) with _ | med
      · simp only [processLines, hm, hf] at h
        exact ih _ _ it h
      · rcases hq : parsePyInt line.quantity with _ | qty
        · simp [processLines, hm, hf, hq] at h
        · by_cases hneg : qty < 0
          · simp [processLines, hm, hf, hq, hneg] at h
          · simp only [processLines, hm, hf, hq] at h
            rw [if_neg hneg] at h
            simp only [List.mem_cons] at h
            rcases h with h | h
            · subst h; rfl
            · exact ih _ _ it h

/-- every item persisted by the line loop snapshots the selling price of the
medicine it references. -/
theorem processLines_unit_price (meds : List Medicine) (oid : Nat) :
    ∀ (lines : List QuickOrderLine) (sub : Rat) (p : Bool),
      ∀ it ∈ (processLines meds oid lines sub p).1,
        ∃ m ∈ meds, m.id = it.medicine_id ∧ it.unit_price = m.selling_price := by
  intro lines
  induction lines with
  | nil => intro sub p it h; simp [processLines] at h
  | cons line rest ih =>
    intro sub p it h
    rcases hm : parsePyInt line.medicine_id with _ | mid
    · simp [processLines, hm] at h
    · rcases hf : meds.find? (fun m => (m.id : Int) == mid) with _ | med
      · simp only [processLines, hm, hf] at h
        exact ih _ _ it h
      · rcases hq : parsePyInt line.quantity with _ | qty
        · simp [processLines, hm, hf, hq] at h
        · by_cases hneg : qty < 0
          · simp [processLines, hm, hf, hq, hneg] at h
          · simp only [processLines, hm, hf, hq] at h
            rw [if_neg hneg] at h
            simp only [List.mem_cons] at h
            rcases h with h | h
            · subst h
              exact ⟨med, List.mem_of_find?_eq_some hf, rfl, rfl⟩
            · exact ih _ _ it h

/-- the prescription flag accumulated by the line loop is the OR, over the
persisted items, of the referenced medicine being prescription-gated. -/
theorem processLines_presc (meds : List Medicine) (oid : Nat)
    (hnd : (meds.map Medicine.id).Nodup) :
    ∀ (lines : List QuickOrderLine) (sub : Rat) (p : Bool)
      (its : List OrderItem) (sub2 : Rat) (p2 : Bool),
      processLines meds oid lines sub p = (its, some (sub2, p2)) →
      (p2 = true ↔ p = true ∨
        ∃ it ∈ its, ∃ m ∈ meds, m.id = it.medicine_id ∧ m.is_prescription_required = true) := by
  intro lines
  induction lines with
  | nil =>
    intro sub p its sub2 p2 h
    simp only [processLines, Prod.mk.injEq, Option.some.injEq] at h
    obtain ⟨hits, hsub, hp⟩ := h
    subst hits; subst hp
    simp
  | cons line rest ih =>
    intro sub p its sub2 p2 h
    rcases hm : parsePyInt line.medicine_id with _ | mid
    · simp [processLines, hm] at h
    · rcases hf : meds.find? (fun m => (m.id : Int) == mid) with _ | med
      · simp only [processLines, hm, hf] at h
        exact ih _ _ _ _ _ h
      · rcases hq : parsePyInt line.quantity with _ | qty
        · simp [processLines, hm, hf, hq] at h
        · by_cases hneg : qty < 0
          · simp [processLines, hm, hf, hq, hneg] at h
          · simp only [processLines, hm, hf, hq] at h
            rw [if_neg hneg] at h
            simp only [Prod.mk.injEq] at h
            obtain ⟨hits, hres⟩ := h
            rcases hr : processLines meds oid rest (sub + med.selling_price * (qty : Rat))
                (p || med.is_prescription_required) with ⟨its2, res2⟩
            rw [hr] at hits hres
            simp only at hits hres
            subst hits
            rcases res2 with _ | st2
            · simp at hres
            · have := ih (sub + med.selling_price * (qty : Rat)) (p || med.is_prescription_required)
                its2 st2.1 st2.2 (by rw [hr])
              have hres2 : st2 = (sub2, p2) := by
                cases st2; simpa using hres
              subst hres2
              simp only at this
              rw [this]
              constructor
              · rintro (hor | ⟨it, hit, hw⟩)
                · rw [Bool.or_eq_true] at hor
                  rcases hor with h | h
                  · exact Or.inl h
                  · refine Or.inr ⟨_, List.mem_cons_self _ _, med, List.mem_of_find?_eq_some hf, rfl, h⟩
                · exact Or.inr ⟨it, List.mem_cons_of_mem _ hit, hw⟩
              · rintro (hp | ⟨it, hit, m, hmem, hid, hipr⟩)
                · exact Or.inl (by simp [hp])
                · rcases List.mem_cons.1 hit with rfl | hit2
                  · left
                    have hmed : med ∈ meds := List.mem_of_find?_eq_some hf
                    have : m = med := List.inj_on_of_nodup_map hnd hmem hmed hid
                    subst this
                    simp [hipr]
                  · exact Or.inr ⟨it, hit2, m, hmem, hid, hipr⟩

/-- shape of the result when an uncaught exception escapes the line loop: the
freshly created order and the items persisted before the failure remain. -/
theorem createQuickOrder_none (s : Store) (req : QuickOrderRequest)
    (its : List OrderItem)
    (h : processLines s.medicines s.next_order_id req.medicines 0 false = (its, none)) :
    createQuickOrder s req =
      ({ (getOrCreateCustomer s req.customer_phone).1 with
         orders := s.orders ++ [initialOrder s req],
         items := s.items ++ its,
         next_order_id := s.next_order_id + 1 }, none) := by
  obtain ⟨h1, h2, h3, h4, h5, h6⟩ := getOrCreateCustomer_frame s req.customer_phone
  rw [createQuickOrder_spec]
  simp [h, h1, h2, h3, h4, h5, h6, initialOrder]

/-- shape of the result when the line loop completes but persisted at least
one item: the tax assignment multiplies a Decimal by a float and raises, so
the order keeps its creation-time zeroed fields and the call fails. -/
theorem createQuickOrder_crash (s : Store) (req : QuickOrderRequest)
    (its : List OrderItem) (sub : Rat) (presc : Bool)
    (h : processLines s.medicines s.next_order_id req.medicines 0 false = (its, some (sub, presc)))
    (hne : its.isEmpty = false) :
    createQuickOrder s req =
      ({ (getOrCreateCustomer s req.customer_phone).1 with
         orders := s.orders ++ [initialOrder s req],
         items := s.items ++ its,
         next_order_id := s.next_order_id + 1 }, none) := by
  obtain ⟨h1, h2, h3, h4, h5, h6⟩ := getOrCreateCustomer_frame s req.customer_phone
  rw [createQuickOrder_spec]
  simp [h, hne, h1, h2, h3, h4, h5, h6, initialOrder]

/-- shape of the result on normal completion: only a loop that persisted no
item reaches `order.save()` (the running total is still the int 0). -/
theorem createQuickOrder_some (s : Store) (req : QuickOrderRequest)
    (sub : Rat) (presc : Bool)
    (h : processLines s.medicines s.next_order_id req.medicines 0 false = ([], some (sub, presc))) :
    createQuickOrder s req =
      ({ (getOrCreateCustomer s req.customer_phone).1 with
         orders := (s.orders ++ [initialOrder s req]).map
           (fun o => if o.order_id == s.next_order_id then finalOrder s req sub presc else o),
         items := s.items,
         next_order_id := s.next_order_id + 1 }, some (finalOrder s req sub presc)) := by
  obtain ⟨h1, h2, h3, h4, h5, h6⟩ := getOrCreateCustomer_frame s req.customer_phone
  rw [createQuickOrder_spec]
  simp [h, h1, h2, h3, h4, h5, h6, initialOrder, finalOrder]

/-- `is_prescription_required` holds exactly when the prescription type is not
over-the-counter. -/
theorem is_prescription_required_iff (m : Medicine) :
    m.is_prescription_required = true ↔ m.prescription_type ≠ PrescriptionType.OTC := by
  cases h : m.prescription_type <;> simp [Medicine.is_prescription_required, h]

/-- replacing the row with a fresh id in a table of strictly older rows is a
no-op. -/
theorem map_replace_of_fresh (orders : List Order) (nid : Nat) (ord : Order)
    (h : ∀ o ∈ orders, o.order_id < nid) :
    orders.map (fun o => if o.order_id == nid then ord else o) = orders := by
  rw [List.map_congr_left (g := id), List.map_id]
  intro o ho
  have := h o ho
  simp [Nat.ne_of_lt this]

/-- a line whose medicine id parses to an integer matching no medicine is
skipped by the loop without any other effect. -/
theorem processLines_skip (meds : List Medicine) (oid : Nat) (bad : QuickOrderLine) (k : Int)
    (hparse : parsePyInt bad.medicine_id = some k)
    (hmiss : ∀ m ∈ meds, (m.id : Int) ≠ k) :
    ∀ (pre post : List QuickOrderLine) (sub : Rat) (p : Bool),
      processLines meds oid (pre ++ bad :: post) sub p =
        processLines meds oid (pre ++ post) sub p := by
  intro pre
  induction pre with
  | nil =>
    intro post sub p
    have hf : meds.find? (fun m => (m.id : Int) == k) = none := by
      rw [List.find?_eq_none]
      intro m hm
      simpa using hmiss m hm
    simp only [List.nil_append, processLines, hparse, hf]
  | cons line rest ih =>
    intro post sub p
    rcases hm : parsePyInt line.medicine_id with _ | mid
    · simp [processLines, hm]
    · rcases hf : meds.find? (fun m => (m.id : Int) == mid) with _ | med
      · simp only [List.cons_append, processLines, hm, hf]
        exact ih post sub p
      · rcases hq : parsePyInt line.quantity with _ | qty
        · simp [processLines, hm, hf, hq]
        · simp only [List.cons_append, processLines, hm, hf, hq, List.append_eq]
          rw [ih]

/-- the status parser fails exactly on strings outside the six enumerated
status values. -/
theorem statusOfString_none_iff (ns : String) :
    statusOfString ns = none ↔ ns ∉ validStatuses := by
  unfold statusOfString
  split <;> simp_all [validStatuses]

/-- a successfully parsed status string is one of the six enumerated values. -/
theorem statusOfString_isSome_mem (ns : String) (st : OrderStatus)
    (h : statusOfString ns = some st) : ns ∈ validStatuses := by
  by_contra hc
  rw [← statusOfString_none_iff] at hc
  rw [hc] at h
  cases h

/-- `getOrCreateCustomer` on a phone number already present returns the found
row and leaves the store untouched. -/
theorem getOrCreateCustomer_found (s : Store) (p : String) (c : Customer)
    (h : s.customers.find? (fun c => c.phone_number == p) = some c) :
    getOrCreateCustomer s p = (s, c) := by
  simp [getOrCreateCustomer, h]

/-- after `getOrCreateCustomer`, looking the phone number up finds exactly the
returned customer. -/
theorem getOrCreateCustomer_find_self (s : Store) (p : String) :
    (getOrCreateCustomer s p).1.customers.find? (fun c => c.phone_number == p)
      = some ((getOrCreateCustomer s p).2) := by
  rcases hf : s.customers.find? (fun c => c.phone_number == p) with _ | c
  · simp [getOrCreateCustomer, hf, List.find?_append, List.find?]
  · simp [getOrCreateCustomer, hf]

/-- `createQuickOrder` changes the customer table only through
`getOrCreateCustomer`. -/
theorem createQuickOrder_customers (s : Store) (req : QuickOrderRequest) :
    (createQuickOrder s req).1.customers
      = (getOrCreateCustomer s req.customer_phone).1.customers := by
  rcases hpr : processLines s.medicines s.next_order_id req.medicines 0 false with ⟨its, res⟩
  rcases res with _ | ⟨sub, presc⟩
  · rw [createQuickOrder_none s req its hpr]
  · rcases its with _ | ⟨it0, its2⟩
    · rw [createQuickOrder_some s req sub presc hpr]
    · rw [createQuickOrder_crash s req (it0 :: its2) sub presc hpr (by simp)]

/-- looking up the upserted key finds the new value. -/
theorem lookup_dictUpsert_self {α β : Type} [BEq α] [LawfulBEq α]
    (l : List (α × β)) (k : α) (v : β) :
    List.lookup k (dictUpsert l k v) = some v := by
  induction l with
  | nil => simp [dictUpsert, List.lookup]
  | cons kv rest ih =>
    rcases kv with ⟨k2, v2⟩
    by_cases h : k2 == k
    · have : k2 = k := by simpa using h
      subst this
      simp [dictUpsert, List.lookup]
    · simp only [dictUpsert, h, Bool.false_eq_true, if_false, List.lookup]
      have h2 : (k == k2) = false := by
        rcases hb : k == k2
        · rfl
        · exact absurd (by simp [eq_of_beq hb]) (fun hc => h hc)
      simp [h2, ih]

/-- upserting one key leaves lookups of other keys unchanged. -/
theorem lookup_dictUpsert_ne {α β : Type} [BEq α] [LawfulBEq α]
    (l : List (α × β)) (k : α) (v : β) (q : α) (hne : q ≠ k) :
    List.lookup q (dictUpsert l k v) = List.lookup q l := by
  induction l with
  | nil =>
    have : (q == k) = false := by simpa using hne
    simp [dictUpsert, List.lookup, this]
  | cons kv rest ih =>
    rcases kv with ⟨k2, v2⟩
    by_cases h : k2 == k
    · have hk : k2 = k := by simpa using h
      subst hk
      have : (q == k2) = false := by simpa using hne
      simp [dictUpsert, List.lookup, this]
    · simp only [dictUpsert, h, Bool.false_eq_true, if_false, List.lookup]
      rcases hb : q == k2
      · simp [ih]
      · simp

/-- a key absent from an association list looks up to nothing. -/
theorem lookup_eq_none_of_not_mem_keys {α β : Type} [BEq α] [LawfulBEq α]
    (l : List (α × β)) (k : α) (h : k ∉ l.map Prod.fst) :
    List.lookup k l = none := by
  induction l with
  | nil => simp [List.lookup]
  | cons kv rest ih =>
    rcases kv with ⟨k2, v2⟩
    simp only [List.map_cons, List.mem_cons] at h
    push_neg at h
    have hb : (k == k2) = false := by simpa using h.1
    simp [List.lookup, hb, ih h.2]

/-- `dict.update` semantics: a key takes its value from the update when
present there, else keeps its value from the original dict. -/
theorem lookup_dictUpdate {α β : Type} [BEq α] [LawfulBEq α] :
    ∀ (upd : List (α × β)), (upd.map Prod.fst).Nodup → ∀ (old : List (α × β)) (k : α),
      List.lookup k (dictUpdate old upd) =
        match List.lookup k upd with
        | some v => some v
        | none => List.lookup k old := by
  intro upd
  induction upd with
  | nil =>
    intro _ old k
    simp [dictUpdate, List.lookup]
  | cons kv rest ih =>
    intro hnd old k
    rcases kv with ⟨k0, v0⟩
    simp only [List.map_cons, List.nodup_cons] at hnd
    obtain ⟨hk0, hndr⟩ := hnd
    have hstep : dictUpdate old ((k0, v0) :: rest) = dictUpdate (dictUpsert old k0 v0) rest := rfl
    rw [hstep, ih hndr]
    by_cases hqk : k = k0
    · subst hqk
      have hrest : List.lookup k rest = none :=
        lookup_eq_none_of_not_mem_keys rest k hk0
      have hupd : List.lookup k ((k, v0) :: rest) = some v0 := by simp [List.lookup]
      rw [hrest, hupd]
      simp [lookup_dictUpsert_self]
    · have hb : (k == k0) = false := by simpa using hqk
      have hupd : List.lookup k ((k0, v0) :: rest) = List.lookup k rest := by
        simp [List.lookup, hb]
      rw [hupd, lookup_dictUpsert_ne old k0 v0 k hqk]

/-- `getOrCreateCustomer` neither reads nor writes the inventory table. -/
theorem getOrCreateCustomer_inv_congr (s : Store) (inv2 : List PharmacyInventory) (p : String) :
    getOrCreateCustomer { s with inventory := inv2 } p
      = ({ (getOrCreateCustomer s p).1 with inventory := inv2 }, (getOrCreateCustomer s p).2) := by
  rcases hf : s.customers.find? (fun c => c.phone_number == p) with _ | c <;>
    simp [getOrCreateCustomer, hf]


unseal Rat.mul Rat.add Rat.sub Rat.inv in
/-- C1 (code bug): the claimed totals never materialize for an order with
items, because the code crashes first.  At the specification's own worked
example (2 units at 50.00 plus 1 unit at 100.00) the tax assignment
multiplies a Decimal running total by the float 0.05 and raises TypeError
before `order.save()`: the call fails, both order items are persisted, and the
order row keeps zeroed subtotal, tax and total instead of the claimed
`round(subtotal * 0.05, 2)` and `subtotal + tax_amount` (which would be
10.00 and 210.00 here).  Only zero-item orders return normally. -/
theorem c1_decimal_float_crash :
    ((createQuickOrder store0 reqA).2 = none) ∧
    ((createQuickOrder store0 reqA).1.orders.map Order.subtotal = [0]) ∧
    ((createQuickOrder store0 reqA).1.orders.map Order.tax_amount = [0]) ∧
    ((createQuickOrder store0 reqA).1.orders.map Order.total_amount = [0]) ∧
    ((createQuickOrder store0 reqA).1.items.length = 2) := by
  decide

unseal Rat.mul Rat.add Rat.sub Rat.inv in
/-- C2 (code bug): the OR-aggregated prescription flag is computed by the loop
but never saved for an order with items: at the mixed OTC/RX request the
TypeError at the tax line aborts the call before `order.save()`, so the
persisted order row keeps `prescription_required = false` even though a
persisted item of that very order references the RX medicine - refuting the
claimed iff on the stored data. -/
theorem c2_flag_not_saved :
    ((createQuickOrder store0 reqA).2 = none) ∧
    ((createQuickOrder store0 reqA).1.orders.map Order.prescription_required = [false]) ∧
    ((createQuickOrder store0 reqA).1.orders.map Order.order_id = [1]) ∧
    (∃ it ∈ (createQuickOrder store0 reqA).1.items,
       it.order_id = 1 ∧ it.medicine_id = medRX.id) ∧
    (medRX.prescription_type ≠ PrescriptionType.OTC) := by
  decide

/-- C3: a request line whose `medicine_id` is an integer matching no Medicine
row raises no error and produces no order item: `create_quick_order` returns
exactly what it returns on the request with that line removed, so the order is
still created from the remaining lines. -/
theorem c3_unknown_medicine_skipped (s : Store) (req : QuickOrderRequest)
    (pre post : List QuickOrderLine) (bad : QuickOrderLine) (k : Int)
    (hreq : req.medicines = pre ++ bad :: post)
    (hparse : parsePyInt bad.medicine_id = some k)
    (hmiss : ∀ m ∈ s.medicines, (m.id : Int) ≠ k) :
    createQuickOrder s req = createQuickOrder s { req with medicines := pre ++ post } := by
  rw [createQuickOrder_spec, createQuickOrder_spec]
  simp only [hreq]
  rw [processLines_skip s.medicines s.next_order_id bad k hparse hmiss pre post 0 false]

/-- C3 witness: dropping the unresolvable line of the concrete request leaves
the result unchanged. -/
theorem c3_skip_witness :
    createQuickOrder store0 c3_req =
      createQuickOrder store0
        { c3_req with medicines := [] ++ [{ medicine_id := "1", quantity := "2" }] } :=
  c3_unknown_medicine_skipped store0 c3_req []
    [{ medicine_id := "1", quantity := "2" }]
    { medicine_id := "99", quantity := "1" } 99 (by decide) (by decide) (by decide)

/-- C4 (amended): a normal return of `create_quick_order` has created exactly
one Order together with all of its OrderItems; but the call is not atomic on
failure: when it raises (on a malformed quantity string, on a negative
quantity, or via the Decimal-times-float TypeError that any item-bearing
order hits at the tax line) the freshly created Order remains persisted, so
the store is changed. -/
theorem c4_order_persisted (s : Store) (req : QuickOrderRequest) (hwf : s.WF) :
    (∀ s2 o, createQuickOrder s req = (s2, some o) →
       s2.orders = s.orders ++ [o] ∧
       ∃ ni, s2.items = s.items ++ ni ∧ ∀ it ∈ ni, it.order_id = o.order_id) ∧
    (∀ s2, createQuickOrder s req = (s2, none) →
       ∃ o0, s2.orders = s.orders ++ [o0] ∧ o0.order_id = s.next_order_id) := by
  obtain ⟨hwfo, hwfi, hnd⟩ := hwf
  constructor
  · intro s2 o h
    rcases hpr : processLines s.medicines s.next_order_id req.medicines 0 false with ⟨its, res⟩
    rcases res with _ | ⟨sub, presc⟩
    · rw [createQuickOrder_none s req its hpr] at h
      simp at h
    · rcases its with _ | ⟨it0, its2⟩
      · rw [createQuickOrder_some s req sub presc hpr] at h
        simp only [Prod.mk.injEq, Option.some.injEq] at h
        obtain ⟨hs, ho⟩ := h
        subst ho
        subst hs
        constructor
        · show (s.orders ++ [initialOrder s req]).map _ = _
          rw [List.map_append, map_replace_of_fresh s.orders s.next_order_id _ hwfo]
          simp [initialOrder, finalOrder]
        · exact ⟨[], by simp, by intro it hit; cases hit⟩
      · rw [createQuickOrder_crash s req (it0 :: its2) sub presc hpr (by simp)] at h
        simp at h
  · intro s2 h
    rcases hpr : processLines s.medicines s.next_order_id req.medicines 0 false with ⟨its, res⟩
    rcases res with _ | ⟨sub, presc⟩
    · rw [createQuickOrder_none s req its hpr] at h
      simp only [Prod.mk.injEq] at h
      exact ⟨initialOrder s req, h.1 ▸ rfl, rfl⟩
    · rcases its with _ | ⟨it0, its2⟩
      · rw [createQuickOrder_some s req sub presc hpr] at h
        simp at h
      · rw [createQuickOrder_crash s req (it0 :: its2) sub presc hpr (by simp)] at h
        simp only [Prod.mk.injEq] at h
        exact ⟨initialOrder s req, h.1 ▸ rfl, rfl⟩

unseal Rat.mul Rat.add Rat.sub Rat.inv in
/-- C4 counterexample: a request whose quantity string is rejected by
`int(...)` makes `create_quick_order` fail, yet the store is not left
unchanged: the order row created before the failure is still persisted. -/
theorem c4_atomicity_counterexample :
    ((createQuickOrder store0 c4_req).2 = none) ∧
    (createQuickOrder store0 c4_req).1 ≠ store0 ∧
    ((createQuickOrder store0 c4_req).1.orders.length = store0.orders.length + 1) := by
  decide

unseal Rat.mul Rat.add Rat.sub Rat.inv in
/-- C4 witness: the normal-return half of the amended claim at a zero-line
request, the kind of quick order that returns normally. -/
theorem c4_order_persisted_witness :
    (createQuickOrder store0 reqEmpty).1.orders = store0.orders ++ [orderZero] ∧
    ∃ ni, (createQuickOrder store0 reqEmpty).1.items = store0.items ++ ni ∧
      ∀ it ∈ ni, it.order_id = orderZero.order_id :=
  (c4_order_persisted store0 reqEmpty (by decide)).1 (createQuickOrder store0 reqEmpty).1
    orderZero (by decide)

/-- C5: `update_order_status` returns 404 exactly when the order id is
unknown, returns 400 exactly when the order exists but the status string is
outside the six enumerated values, and otherwise overwrites the status
unconditionally, whatever the previous status was (so any status can move to
any other, including DELIVERED to PENDING). -/
theorem c5_update_order_status_spec (s : Store) (oid : Nat) (ns : String) :
    (update_order_status s oid ns = UpdateStatusResult.err404 ↔
       ∀ o ∈ s.orders, o.order_id ≠ oid) ∧
    (update_order_status s oid ns = UpdateStatusResult.err400 ↔
       (∃ o ∈ s.orders, o.order_id = oid) ∧ ns ∉ validStatuses) ∧
    (∀ o st, s.orders.find? (fun p => p.order_id == oid) = some o →
       statusOfString ns = some st →
       update_order_status s oid ns =
         UpdateStatusResult.ok
           { s with orders := (s.orders.map
               (fun p => if p.order_id == oid then { o with status := st } else p)) }
           { o with status := st }) := by
  refine ⟨?_, ?_, ?_⟩
  · rcases hf : s.orders.find? (fun p => p.order_id == oid) with _ | o
    · simp only [update_order_status, hf]
      refine iff_of_true trivial ?_
      rw [List.find?_eq_none] at hf
      intro o ho
      simpa using hf o ho
    · have hmem := List.mem_of_find?_eq_some hf
      have hpo : o.order_id = oid := by simpa using List.find?_some hf
      rcases hst : statusOfString ns with _ | st <;>
        simp only [update_order_status, hf, hst] <;>
        exact iff_of_false (by simp) (fun hall => absurd hpo (hall o hmem))
  · rcases hf : s.orders.find? (fun p => p.order_id == oid) with _ | o
    · simp only [update_order_status, hf]
      refine iff_of_false (by simp) ?_
      rintro ⟨⟨o, hmem, hoid⟩, _⟩
      rw [List.find?_eq_none] at hf
      exact hf o hmem (by simpa using hoid)
    · have hmem := List.mem_of_find?_eq_some hf
      have hpo : o.order_id = oid := by simpa using List.find?_some hf
      rcases hst : statusOfString ns with _ | st
      · simp only [update_order_status, hf, hst]
        exact iff_of_true trivial ⟨⟨o, hmem, hpo⟩, (statusOfString_none_iff ns).1 hst⟩
      · simp only [update_order_status, hf, hst]
        exact iff_of_false (by simp)
          (fun h => h.2 (statusOfString_isSome_mem ns st hst))
  · intro o st hf hst
    simp only [update_order_status, hf, hst]

/-- C5 witness: a DELIVERED order is moved back to PENDING with no guard. -/
theorem c5_update_witness :
    update_order_status c5_store 1 "PENDING" =
      UpdateStatusResult.ok
        { c5_store with orders := (c5_store.orders.map
            (fun p => if p.order_id == 1 then { orderDelivered with status := OrderStatus.PENDING } else p)) }
        { orderDelivered with status := OrderStatus.PENDING } :=
  (c5_update_order_status_spec c5_store 1 "PENDING").2.2 orderDelivered OrderStatus.PENDING
    (by decide) (by decide)

/-- C6: customer get-or-create keyed on the phone number is idempotent: after
a first `create_quick_order` call, a second call with the same
`customer_phone` resolves to the very customer row of the first call and adds
no duplicate row; and a newly created customer has `whatsapp_number` (and
`phone_number`) equal to the supplied phone number. -/
theorem c6_customer_get_or_create_idempotent (s : Store) (r1 r2 : QuickOrderRequest)
    (hp : r2.customer_phone = r1.customer_phone) :
    (getOrCreateCustomer (createQuickOrder s r1).1 r2.customer_phone
       = ((createQuickOrder s r1).1, (getOrCreateCustomer s r1.customer_phone).2)) ∧
    ((createQuickOrder (createQuickOrder s r1).1 r2).1.customers
       = (createQuickOrder s r1).1.customers) ∧
    (s.customers.find? (fun c => c.phone_number == r1.customer_phone) = none →
       (getOrCreateCustomer s r1.customer_phone).2.whatsapp_number = r1.customer_phone ∧
       (getOrCreateCustomer s r1.customer_phone).2.phone_number = r1.customer_phone) := by
  have hfind : (createQuickOrder s r1).1.customers.find?
      (fun c => c.phone_number == r1.customer_phone)
      = some ((getOrCreateCustomer s r1.customer_phone).2) := by
    rw [createQuickOrder_customers]
    exact getOrCreateCustomer_find_self s r1.customer_phone
  refine ⟨?_, ?_, ?_⟩
  · rw [hp]
    exact getOrCreateCustomer_found _ _ _ hfind
  · rw [createQuickOrder_customers (createQuickOrder s r1).1 r2, hp,
      getOrCreateCustomer_found _ _ _ hfind]
  · intro hnone
    simp [getOrCreateCustomer, hnone]

unseal Rat.mul Rat.add Rat.sub Rat.inv in
/-- C6 witness: two identical quick-order calls on the empty customer table. -/
theorem c6_witness :
    (getOrCreateCustomer (createQuickOrder store0 reqA).1 reqA.customer_phone
       = ((createQuickOrder store0 reqA).1, (getOrCreateCustomer store0 reqA.customer_phone).2)) ∧
    ((createQuickOrder (createQuickOrder store0 reqA).1 reqA).1.customers
       = (createQuickOrder store0 reqA).1.customers) ∧
    (store0.customers.find? (fun c => c.phone_number == reqA.customer_phone) = none →
       (getOrCreateCustomer store0 reqA.customer_phone).2.whatsapp_number = reqA.customer_phone ∧
       (getOrCreateCustomer store0 reqA.customer_phone).2.phone_number = reqA.customer_phone) :=
  c6_customer_get_or_create_idempotent store0 reqA reqA rfl

/-- C7: a conversation-session update merges `context_data` key-wise rather
than replacing it: after the update, a key present in the update maps to its
new value, and every other key keeps its value from the stored context. -/
theorem c7_context_merge (s : Store) (phone sid : String) (stepOpt : Option String)
    (u : List (String × JVal)) (hnd : (u.map Prod.fst).Nodup) (k : String) :
    List.lookup k ((whatsappSessionPost s phone sid stepOpt (some u)).2.context_data) =
      match List.lookup k u with
      | some v => some v
      | none => List.lookup k ((getOrCreateSession s phone sid).2.context_data) := by
  have hctx : (whatsappSessionPost s phone sid stepOpt (some u)).2.context_data
      = dictUpdate ((getOrCreateSession s phone sid).2.context_data) u := by
    cases stepOpt <;> rfl
  rw [hctx, lookup_dictUpdate u hnd]
  rcases h : List.lookup k u with _ | v <;> simp [h]

/-- C7 witness: updating a session that held the single key `a` with the
single key `b` keeps the value of `a` (the claim's example). -/
theorem c7_merge_witness :
    List.lookup "a"
        ((whatsappSessionPost c7_store "p1" "default" none
            (some [("b", JVal.jnum 2)])).2.context_data) =
      match List.lookup "a" [("b", JVal.jnum 2)] with
      | some v => some v
      | none => List.lookup "a" ((getOrCreateSession c7_store "p1" "default").2.context_data) :=
  c7_context_merge c7_store "p1" "default" none [("b", JVal.jnum 2)] (by decide) "a"

/-- C8 (amended): for every medicine, `selling_price` equals
`mrp - mrp * discount_percentage / 100`; and whenever the MRP is nonnegative
and the discount lies in [0, 100], the selling price lies between 0 and the
MRP (the nonnegativity of the MRP is required: nothing in the source prevents
a negative MRP, and the bounds fail there). -/
theorem c8_selling_price_bounds (m : Medicine) (hm : 0 ≤ m.mrp)
    (h0 : 0 ≤ m.discount_percentage) (h1 : m.discount_percentage ≤ 100) :
    m.selling_price = m.mrp - m.mrp * m.discount_percentage / 100 ∧
    0 ≤ m.selling_price ∧ m.selling_price ≤ m.mrp := by
  refine ⟨rfl, ?_, ?_⟩
  · unfold Medicine.selling_price
    nlinarith [mul_nonneg hm (by linarith : (0 : Rat) ≤ 100 - m.discount_percentage)]
  · unfold Medicine.selling_price
    nlinarith [mul_nonneg hm h0]

unseal Rat.mul Rat.add Rat.sub Rat.inv in
/-- C8 counterexample: a medicine with MRP -1 and discount 0 (which lies in
[0, 100]) has selling price -1, violating `0 ≤ selling_price`. -/
theorem c8_negative_mrp_counterexample :
    (0 ≤ c8_bad.discount_percentage ∧ c8_bad.discount_percentage ≤ 100) ∧
    ¬ (0 ≤ c8_bad.selling_price) := by
  decide

unseal Rat.mul Rat.add Rat.sub Rat.inv in
/-- C8 witness: the bounds at the concrete 100.00-MRP medicine. -/
theorem c8_bounds_witness :
    medRX.selling_price = medRX.mrp - medRX.mrp * medRX.discount_percentage / 100 ∧
    0 ≤ medRX.selling_price ∧ medRX.selling_price ≤ medRX.mrp :=
  c8_selling_price_bounds medRX (by decide) (by decide) (by decide)

/-- C9: `create_quick_order` neither writes nor reads `PharmacyInventory`
(the inventory table is unchanged, and the whole result is independent of its
contents, so stock is never decremented), and every persisted order item takes
its `unit_price` from the Medicine-level `selling_price`. -/
theorem c9_inventory_frame (s : Store) (req : QuickOrderRequest) (inv2 : List PharmacyInventory) :
    ((createQuickOrder s req).1.inventory = s.inventory) ∧
    (createQuickOrder { s with inventory := inv2 } req
       = ({ (createQuickOrder s req).1 with inventory := inv2 }, (createQuickOrder s req).2)) ∧
    (∀ it ∈ (createQuickOrder s req).1.items,
       it ∈ s.items ∨
         ∃ m ∈ s.medicines, m.id = it.medicine_id ∧ it.unit_price = m.selling_price) := by
  obtain ⟨h1, h2, h3, h4, h5, h6⟩ := getOrCreateCustomer_frame s req.customer_phone
  rcases hpr : processLines s.medicines s.next_order_id req.medicines 0 false with ⟨its, res⟩
  have hpr2 : processLines ({ s with inventory := inv2 } : Store).medicines
      ({ s with inventory := inv2 } : Store).next_order_id req.medicines 0 false = (its, res) := hpr
  have hitems : ∀ it ∈ its,
      ∃ m ∈ s.medicines, m.id = it.medicine_id ∧ it.unit_price = m.selling_price := by
    intro it hit
    exact processLines_unit_price s.medicines s.next_order_id req.medicines 0 false it
      (by rw [hpr]; exact hit)
  rcases res with _ | ⟨sub, presc⟩
  · rw [createQuickOrder_none s req its hpr]
    refine ⟨h4, ?_, ?_⟩
    · rw [createQuickOrder_none ({ s with inventory := inv2 } : Store) req its hpr2,
        getOrCreateCustomer_inv_congr]
      simp [initialOrder, getOrCreateCustomer_inv_congr]
    · intro it hit
      simp only [List.mem_append] at hit
      rcases hit with hold | hnew
      · exact Or.inl hold
      · exact Or.inr (hitems it hnew)
  · rcases its with _ | ⟨it0, its2⟩
    · rw [createQuickOrder_some s req sub presc hpr]
      refine ⟨h4, ?_, ?_⟩
      · rw [createQuickOrder_some ({ s with inventory := inv2 } : Store) req sub presc hpr2,
          getOrCreateCustomer_inv_congr]
        simp [initialOrder, finalOrder, getOrCreateCustomer_inv_congr]
      · intro it hit
        exact Or.inl hit
    · rw [createQuickOrder_crash s req (it0 :: its2) sub presc hpr (by simp)]
      refine ⟨h4, ?_, ?_⟩
      · rw [createQuickOrder_crash ({ s with inventory := inv2 } : Store) req (it0 :: its2)
            sub presc hpr2 (by simp), getOrCreateCustomer_inv_congr]
        simp [initialOrder, getOrCreateCustomer_inv_congr]
      · intro it hit
        simp only [List.mem_append] at hit
        rcases hit with hold | hnew
        · exact Or.inl hold
        · exact Or.inr (hitems it hnew)

unseal Rat.mul Rat.add Rat.sub Rat.inv in
/-- C9 witness: the frame property at the concrete two-line order, against an
emptied inventory table. -/
theorem c9_frame_witness :
    ((createQuickOrder store0 reqA).1.inventory = store0.inventory) ∧
    (createQuickOrder { store0 with inventory := [] } reqA
       = ({ (createQuickOrder store0 reqA).1 with inventory := [] },
          (createQuickOrder store0 reqA).2)) ∧
    (∀ it ∈ (createQuickOrder store0 reqA).1.items,
       it ∈ store0.items ∨
         ∃ m ∈ store0.medicines, m.id = it.medicine_id ∧ it.unit_price = m.selling_price) :=
  c9_inventory_frame store0 reqA []

/-- C10: every medicine returned by the suggestions endpoint is active and has
prescription type OTC; prescription-required and controlled medicines are
never suggested. -/
theorem c10_suggestions_otc_only (meds : List Medicine) (symptom : String) (limit : Nat) :
    ∀ m ∈ medicine_suggestions meds symptom limit,
      m.is_active = true ∧ m.prescription_type = PrescriptionType.OTC := by
  intro m hm
  unfold medicine_suggestions at hm
  rcases hf : symptom_keywords.find? (fun ck => strContains symptom ck.1) with _ | ck
  · rw [hf] at hm
    simp at hm
  · rw [hf] at hm
    simp only at hm
    have hm2 := List.mem_of_mem_take hm
    have hm3 := List.mem_of_mem_take hm2
    rw [List.mem_filter] at hm3
    obtain ⟨_, hcond⟩ := hm3
    simp only [Bool.and_eq_true, beq_iff_eq] at hcond
    exact ⟨hcond.1.2, hcond.2⟩

/-- C10 witness: the OTC sample medicine is suggested for a fever symptom and
is indeed active and OTC. -/
theorem c10_otc_witness :
    medOTC.is_active = true ∧ medOTC.prescription_type = PrescriptionType.OTC :=
  c10_suggestions_otc_only [medOTC, medRX] "i have fever" 5 medOTC (by decide)
